import Mathlib

/-!
# Lab6: classes and students over a relational store and a key-value cache

A shallow embedding of the ten request handlers of `service/class.service.go`
and `service/student.service.go`, with the two tables of `models/`.

Modelling conventions.

* The relational store is a pair of row lists with their id sequences.  Every
  model embeds `gorm.Model`, so a delete is a soft delete (`DeletedAt` is
  stamped) and every query only sees rows whose `DeletedAt` is empty.
* The cache is a list of entries carrying their expiry instant; the clock is a
  natural number of seconds handed to each request.
* Each call to the store or to the cache may fail.  A request carries a record
  `Faults` saying which of its calls fail; a handler reacts to a failure
  exactly where the source tests the returned error and ignores it elsewhere.
* The JSON codec and the encoding of a value handed to the cache client are
  library code: they are taken as a parameter `Codec`.
* A request body is the outcome of `ShouldBindJSON`: an error text or the bound
  columns.  Bodies are restricted to the columns of the row itself; a body
  that also carries keys of `gorm.Model` or a nested association object is not
  covered.
* The path parameter `id` is held as the pair of its text, from which the
  handlers build cache keys, and of the primary key the store resolves that
  text to (the text `01` resolves to 1).  Texts that are not numerals, which
  the store would read as a raw condition, are not covered.
* The students table carries the foreign key `class_id -> classes.id` declared
  in `models/student.go` and created by `AutoMigrate`: a student row can only
  be written when some class row, soft-deleted or not, carries its `ClassID`.
* Every handler returns the response, the store and cache it leaves behind and
  the list of store and cache calls it made, in order.
-/

namespace Lab6

/-! ## Data model (`models/student.go`, `models/class.go`) -/

/-- Row of the students table: `models.Student` (the columns of `gorm.Model`
first). -/
structure Student where
  ID : Nat
  CreatedAt : Nat
  UpdatedAt : Nat
  DeletedAt : Option Nat
  Name : String
  Age : Int
  Email : String
  ClassID : Nat
deriving DecidableEq, Repr

/-- Row of the classes table: `models.Class`.  `Students` is the has-many
relation; it is filled by `Preload("Students")` and empty otherwise. -/
structure Class where
  ID : Nat
  CreatedAt : Nat
  UpdatedAt : Nat
  DeletedAt : Option Nat
  Name : String
  Teacher : String
  Capacity : Int
  Students : List Student
deriving DecidableEq, Repr

/-- Columns bound from the body of a student create request.  The handler
binds the whole `models.Student`; a body that also carries keys of
`gorm.Model` or a nested class object is not covered. -/
structure StudentBody where
  Name : String
  Age : Int
  Email : String
  ClassID : Nat
deriving DecidableEq, Repr

/-- Columns bound from the body of a student update request; a key missing
from the JSON object leaves the loaded value in place.  The handler binds the
whole `models.Student`; a body that also carries keys of `gorm.Model` or a
nested class object is not covered. -/
structure StudentPatch where
  Name : Option String
  Age : Option Int
  Email : Option String
  ClassID : Option Nat
deriving DecidableEq, Repr

/-- Columns bound from the body of a class request (`requestData` of
`UpdateClass`). -/
structure ClassBody where
  Name : String
  Teacher : String
  Capacity : Int
deriving DecidableEq, Repr

/-- The path parameter `id`: the raw text `c.Param("id")` and the primary key
the store resolves it to. -/
structure PathID where
  text : String
  value : Nat
deriving DecidableEq, Repr

/-- The relational store: both tables and the next value of each id sequence. -/
structure DB where
  classes : List Class
  students : List Student
  classSeq : Nat
  studentSeq : Nat
deriving DecidableEq, Repr

/-- One cache entry with the instant at which it expires. -/
structure Entry where
  key : String
  value : String
  expiresAt : Nat
deriving DecidableEq, Repr

/-- The key-value cache. -/
abbrev Cache := List Entry

/-- Which collaborator calls of the current request fail, and the text of the
error they return. -/
structure Faults where
  dbFirst : Bool
  dbFind : Bool
  dbCount : Bool
  dbCreate : Bool
  dbSave : Bool
  dbDelete : Bool
  redisGet : Bool
  redisSet : Bool
  redisDel : Bool
  errText : String
deriving DecidableEq, Repr

/-- A request on which every collaborator call answers. -/
def noFaults : Faults :=
  ⟨false, false, false, false, false, false, false, false, false, ""⟩

/-- Library code taken as a parameter: `json.Marshal`, `json.Unmarshal` at the
four target types, and the encoding the cache client applies to a non-text
value handed to `Set` (`none`: the client refuses the value and `Set` returns
an error). -/
structure Codec where
  marshalClass : Class → String
  marshalClasses : List Class → String
  unmarshalClass : String → Option Class
  unmarshalClasses : String → Option (List Class)
  unmarshalStudent : String → Option Student
  unmarshalStudents : String → Option (List Student)
  argStudent : Student → Option String
  argStudents : List Student → Option String

/-- Body handed to `c.JSON`. -/
inductive Body where
  | error (msg : String)
  | message (msg : String)
  | classObj (c : Class)
  | classesObj (cs : List Class)
  | studentObj (s : Student)
  | student (s : Student)
  | students (ss : List Student)
deriving DecidableEq, Repr

/-- HTTP response. -/
structure Response where
  status : Nat
  body : Body
deriving DecidableEq, Repr

/-- One call to a collaborator. -/
inductive Effect where
  | dbFirst (table : String) (id : Nat)
  | dbFind (table : String)
  | dbCount (table : String) (classID : Nat)
  | dbCreate (table : String)
  | dbSave (table : String) (id : Nat)
  | dbDelete (table : String) (id : Nat)
  | redisGet (key : String)
  | redisSet (key : String) (value : Option String) (ttl : Nat)
  | redisDel (keys : List String)
deriving DecidableEq, Repr

/-- Store calls that read. -/
def Effect.isStoreRead : Effect → Bool
  | .dbFirst _ _ => true
  | .dbFind _ => true
  | .dbCount _ _ => true
  | _ => false

/-- Cache calls that write an entry. -/
def Effect.isCacheWrite : Effect → Bool
  | .redisSet _ _ _ => true
  | _ => false

/-- What a handler leaves behind. -/
structure Result where
  resp : Response
  db : DB
  cache : Cache
  trace : List Effect
deriving DecidableEq, Repr

/-! ## Constants -/

def StatusOK : Nat := 200
def StatusCreated : Nat := 201
def StatusBadRequest : Nat := 400
def StatusNotFound : Nat := 404
def StatusInternalServerError : Nat := 500

/-- Seconds in `time.Minute`. -/
def Minute : Nat := 60

/-- The expiry `10*time.Minute` passed to every `Set`. -/
def ttl : Nat := 10 * Minute

/-- Go conversion `int(x)` of a `uint` on a 64-bit platform. -/
def goInt (n : Nat) : Int :=
  if n % 2 ^ 64 < 2 ^ 63 then (n % 2 ^ 64 : Nat) else ((n % 2 ^ 64 : Nat) : Int) - 2 ^ 64

/-- Decimal rendering `strconv.Itoa`. -/
def Itoa (i : Int) : String := toString i

/-! ## The store (the gorm calls the handlers make) -/

/-- Students a query sees for a class: `class_id = cid` and not soft-deleted. -/
def enrolled (db : DB) (cid : Nat) : List Student :=
  db.students.filter (fun s => decide (s.ClassID = cid ∧ s.DeletedAt = none))

/-- Foreign key `students.class_id -> classes.id`: some class row, soft-deleted
or not, carries the id. -/
def classRowExists (db : DB) (cid : Nat) : Bool :=
  db.classes.any (fun c => decide (c.ID = cid))

/-- The call `db.First(&class, id)`. -/
def dbFirstClass (f : Faults) (id : Nat) (db : DB) : Option Class :=
  if f.dbFirst then none
  else (db.classes.find? (fun c => decide (c.ID = id ∧ c.DeletedAt = none))).map
    (fun c => { c with Students := [] })

/-- The call `db.Preload("Students").First(&class, id)`. -/
def dbFirstClassPreload (f : Faults) (id : Nat) (db : DB) : Option Class :=
  if f.dbFirst then none
  else (db.classes.find? (fun c => decide (c.ID = id ∧ c.DeletedAt = none))).map
    (fun c => { c with Students := enrolled db c.ID })

/-- The call `db.Preload("Students").Find(&classes)`. -/
def dbFindClasses (f : Faults) (db : DB) : Option (List Class) :=
  if f.dbFind then none
  else some ((db.classes.filter (fun c => decide (c.DeletedAt = none))).map
    (fun c => { c with Students := enrolled db c.ID }))

/-- The call `db.Model(&models.Student{}).Where("class_id = ?", cid).Count(&n)`
on a counter initialised to zero: a failing query leaves the zero. -/
def dbCountStudents (f : Faults) (cid : Nat) (db : DB) : Int :=
  if f.dbCount then 0 else ((enrolled db cid).length : Int)

/-- The call `db.First(&student, id)`. -/
def dbFirstStudent (f : Faults) (id : Nat) (db : DB) : Option Student :=
  if f.dbFirst then none
  else db.students.find? (fun s => decide (s.ID = id ∧ s.DeletedAt = none))

/-- The call `db.Find(&students)`. -/
def dbFindStudents (f : Faults) (db : DB) : Option (List Student) :=
  if f.dbFind then none
  else some (db.students.filter (fun s => decide (s.DeletedAt = none)))

/-- The call `db.Create(&student)`: the id comes from the sequence, the insert
fails on a duplicate key or on a `ClassID` no class row carries, an `Age` of
zero takes the column default 1. -/
def dbCreateStudent (f : Faults) (now : Nat) (b : StudentBody) (db : DB) :
    Option Student × DB :=
  if f.dbCreate then (none, db)
  else
    let id := db.studentSeq
    let db1 : DB := { db with studentSeq := id + 1 }
    if db.students.any (fun s => decide (s.ID = id)) then (none, db1)
    else if classRowExists db b.ClassID = false then (none, db1)
    else
      let s : Student :=
        ⟨id, now, now, none, b.Name, if b.Age = 0 then 1 else b.Age, b.Email, b.ClassID⟩
      (some s, { db1 with students := db.students ++ [s] })

/-- The call `db.Create(&class)`. -/
def dbCreateClass (f : Faults) (now : Nat) (b : ClassBody) (db : DB) :
    Option Class × DB :=
  if f.dbCreate then (none, db)
  else
    let id := db.classSeq
    let db1 : DB := { db with classSeq := id + 1 }
    if db.classes.any (fun c => decide (c.ID = id)) then (none, db1)
    else
      let c : Class := ⟨id, now, now, none, b.Name, b.Teacher, b.Capacity, []⟩
      (some c, { db1 with classes := db.classes ++ [c] })

/-- The call `db.Save(&student)`: every column of the live row with this id is
rewritten and `UpdatedAt` is stamped; the write fails when no class row
carries the `ClassID` of the student. -/
def dbSaveStudent (f : Faults) (now : Nat) (s : Student) (db : DB) :
    Option (Student × DB) :=
  if f.dbSave then none
  else if classRowExists db s.ClassID = false then none
  else
    let s1 : Student := { s with UpdatedAt := now }
    let rows := db.students.map
      (fun r => if r.ID = s.ID ∧ r.DeletedAt = none then s1 else r)
    some (s1, { db with students := rows })

/-- The call `db.Save(&class)`; the returned struct keeps its preloaded
students. -/
def dbSaveClass (f : Faults) (now : Nat) (c : Class) (db : DB) :
    Option (Class × DB) :=
  if f.dbSave then none
  else
    let c1 : Class := { c with UpdatedAt := now }
    let rows := db.classes.map
      (fun r => if r.ID = c.ID ∧ r.DeletedAt = none then { c1 with Students := [] } else r)
    some (c1, { db with classes := rows })

/-- The call `db.Delete(&student)`: a soft delete. -/
def dbDeleteStudent (f : Faults) (now : Nat) (s : Student) (db : DB) : Option DB :=
  if f.dbDelete then none
  else
    let rows := db.students.map
      (fun r => if r.ID = s.ID ∧ r.DeletedAt = none then { r with DeletedAt := some now } else r)
    some { db with students := rows }

/-- The call `db.Delete(&class)`: a soft delete. -/
def dbDeleteClass (f : Faults) (now : Nat) (c : Class) (db : DB) : Option DB :=
  if f.dbDelete then none
  else
    let rows := db.classes.map
      (fun r => if r.ID = c.ID ∧ r.DeletedAt = none then { r with DeletedAt := some now } else r)
    some { db with classes := rows }

/-! ## The cache (the go-redis calls the handlers make) -/

/-- Outcome of `redisClient.Get(ctx, key).Result()`. -/
inductive Lookup where
  | miss
  | fail
  | hit (val : String)
deriving DecidableEq, Repr

/-- The call `Get`: `redis.Nil` when no unexpired entry has the key. -/
def redisGet (f : Faults) (now : Nat) (k : String) (cache : Cache) : Lookup :=
  if f.redisGet then .fail
  else match cache.find? (fun e => decide (e.key = k ∧ now < e.expiresAt)) with
    | none => .miss
    | some e => .hit e.value

/-- The call `Set(ctx, k, v, d)`: `none` when it returns an error, else the
cache with the entry replaced. -/
def redisSet (f : Faults) (now : Nat) (k : String) (v : Option String) (d : Nat)
    (cache : Cache) : Option Cache :=
  if f.redisSet then none
  else match v with
    | none => none
    | some val => some (⟨k, val, now + d⟩ :: cache.filter (fun e => decide (e.key ≠ k)))

/-- The call `Del(ctx, keys...)`, whose error no handler looks at. -/
def redisDel (f : Faults) (ks : List String) (cache : Cache) : Cache :=
  if f.redisDel then cache
  else cache.filter (fun e => decide (e.key ∉ ks))

/-! ## Class handlers (`service/class.service.go`) -/

/-- Handler `CreateClass` (lines 25-38). -/
def CreateClass (f : Faults) (now : Nat) (body : Except String ClassBody)
    (db : DB) (cache : Cache) : Result :=
  match body with
  | .error e => ⟨⟨StatusBadRequest, .error e⟩, db, cache, []⟩
  | .ok b =>
    match dbCreateClass f now b db with
    | (none, db1) =>
      ⟨⟨StatusBadRequest, .error f.errText⟩, db1, cache, [.dbCreate "classes"]⟩
    | (some cls, db1) =>
      ⟨⟨StatusCreated, .classObj cls⟩, db1, redisDel f ["classes"] cache,
        [.dbCreate "classes", .redisDel ["classes"]]⟩

/-- Handler `GetClasses` (lines 46-67). -/
def GetClasses (cdc : Codec) (f : Faults) (now : Nat) (db : DB) (cache : Cache) : Result :=
  match redisGet f now "classes" cache with
  | .miss =>
    match dbFindClasses f db with
    | none =>
      ⟨⟨StatusBadRequest, .error f.errText⟩, db, cache,
        [.redisGet "classes", .dbFind "classes"]⟩
    | some classes =>
      let jsonData := cdc.marshalClasses classes
      ⟨⟨StatusOK, .classesObj classes⟩, db,
        (redisSet f now "classes" (some jsonData) ttl cache).getD cache,
        [.redisGet "classes", .dbFind "classes", .redisSet "classes" (some jsonData) ttl]⟩
  | .fail =>
    ⟨⟨StatusInternalServerError, .error "Error retrieving from cache"⟩, db, cache,
      [.redisGet "classes"]⟩
  | .hit val =>
    match cdc.unmarshalClasses val with
    | none =>
      ⟨⟨StatusInternalServerError, .error "Failed to unmarshal classes from cache"⟩,
        db, cache, [.redisGet "classes"]⟩
    | some classes => ⟨⟨StatusOK, .classesObj classes⟩, db, cache, [.redisGet "classes"]⟩

/-- Handler `GetClassByID` (lines 76-98). -/
def GetClassByID (cdc : Codec) (f : Faults) (now : Nat) (id : PathID)
    (db : DB) (cache : Cache) : Result :=
  let key := "class:" ++ id.text
  match redisGet f now key cache with
  | .miss =>
    match dbFirstClassPreload f id.value db with
    | none =>
      ⟨⟨StatusNotFound, .error "Class not found"⟩, db, cache,
        [.redisGet key, .dbFirst "classes" id.value]⟩
    | some cls =>
      let jsonData := cdc.marshalClass cls
      ⟨⟨StatusOK, .classObj cls⟩, db,
        (redisSet f now key (some jsonData) ttl cache).getD cache,
        [.redisGet key, .dbFirst "classes" id.value, .redisSet key (some jsonData) ttl]⟩
  | .fail =>
    ⟨⟨StatusInternalServerError, .error "Error retrieving from cache"⟩, db, cache,
      [.redisGet key]⟩
  | .hit val =>
    match cdc.unmarshalClass val with
    | none =>
      ⟨⟨StatusInternalServerError, .error "Failed to unmarshal class from cache"⟩,
        db, cache, [.redisGet key]⟩
    | some cls => ⟨⟨StatusOK, .classObj cls⟩, db, cache, [.redisGet key]⟩

/-- Handler `UpdateClass` (lines 109-139). -/
def UpdateClass (f : Faults) (now : Nat) (id : PathID) (body : Except String ClassBody)
    (db : DB) (cache : Cache) : Result :=
  match body with
  | .error _ => ⟨⟨StatusBadRequest, .error "Invalid request data"⟩, db, cache, []⟩
  | .ok requestData =>
    match dbFirstClassPreload f id.value db with
    | none =>
      ⟨⟨StatusNotFound, .error "Class not found"⟩, db, cache, [.dbFirst "classes" id.value]⟩
    | some cls =>
      let currentStudentCount : Int := (cls.Students.length : Int)
      if requestData.Capacity < currentStudentCount then
        ⟨⟨StatusBadRequest, .error
            ("Cannot reduce capacity below current number of students ("
              ++ toString currentStudentCount ++ ")")⟩,
          db, cache, [.dbFirst "classes" id.value]⟩
      else
        let cls1 : Class := { cls with
          Name := requestData.Name
          Teacher := requestData.Teacher
          Capacity := requestData.Capacity }
        match dbSaveClass f now cls1 db with
        | none =>
          ⟨⟨StatusInternalServerError, .error "Failed to update class"⟩, db, cache,
            [.dbFirst "classes" id.value, .dbSave "classes" cls1.ID]⟩
        | some (cls2, db1) =>
          let keys := ["class:" ++ id.text, "classes"]
          ⟨⟨StatusOK, .classObj cls2⟩, db1, redisDel f keys cache,
            [.dbFirst "classes" id.value, .dbSave "classes" cls1.ID, .redisDel keys]⟩

/-- Handler `DeleteClass` (lines 148-161). -/
def DeleteClass (f : Faults) (now : Nat) (id : PathID) (db : DB) (cache : Cache) : Result :=
  match dbFirstClassPreload f id.value db with
  | none =>
    ⟨⟨StatusNotFound, .error "Class not found"⟩, db, cache, [.dbFirst "classes" id.value]⟩
  | some cls =>
    match dbDeleteClass f now cls db with
    | none =>
      ⟨⟨StatusInternalServerError, .error "Failed to delete class"⟩, db, cache,
        [.dbFirst "classes" id.value, .dbDelete "classes" cls.ID]⟩
    | some db1 =>
      let keys := ["class:" ++ id.text, "classes"]
      ⟨⟨StatusOK, .message "Class deleted successfully"⟩, db1, redisDel f keys cache,
        [.dbFirst "classes" id.value, .dbDelete "classes" cls.ID, .redisDel keys]⟩

/-! ## Student handlers (`service/student.service.go`) -/

/-- Handler `CreateStudent` (lines 28-55). -/
def CreateStudent (cdc : Codec) (f : Faults) (now : Nat) (body : Except String StudentBody)
    (db : DB) (cache : Cache) : Result :=
  match body with
  | .error _ => ⟨⟨StatusBadRequest, .error "Invalid request data"⟩, db, cache, []⟩
  | .ok student =>
    match dbFirstClass f student.ClassID db with
    | none =>
      ⟨⟨StatusNotFound, .error "Class not found"⟩, db, cache,
        [.dbFirst "classes" student.ClassID]⟩
    | some cls =>
      let currentStudentCount : Int := dbCountStudents f student.ClassID db
      if currentStudentCount ≥ cls.Capacity then
        ⟨⟨StatusBadRequest, .error "Cannot add student: class is full"⟩, db, cache,
          [.dbFirst "classes" student.ClassID, .dbCount "students" student.ClassID]⟩
      else
        match dbCreateStudent f now student db with
        | (none, db1) =>
          ⟨⟨StatusInternalServerError, .error "Failed to create student"⟩, db1, cache,
            [.dbFirst "classes" student.ClassID, .dbCount "students" student.ClassID,
              .dbCreate "students"]⟩
        | (some st, db1) =>
          let key := "student:" ++ Itoa (goInt st.ID)
          let tr := [.dbFirst "classes" student.ClassID,
            .dbCount "students" student.ClassID, .dbCreate "students",
            Effect.redisSet key (cdc.argStudent st) ttl]
          match redisSet f now key (cdc.argStudent st) ttl cache with
          | none =>
            ⟨⟨StatusInternalServerError, .error "Failed to cache student"⟩, db1, cache, tr⟩
          | some cache1 => ⟨⟨StatusCreated, .studentObj st⟩, db1, cache1, tr⟩

/-- Handler `GetAllStudents` (lines 63-85). -/
def GetAllStudents (cdc : Codec) (f : Faults) (now : Nat) (db : DB) (cache : Cache) :
    Result :=
  match redisGet f now "students" cache with
  | .miss =>
    match dbFindStudents f db with
    | none =>
      ⟨⟨StatusInternalServerError, .error "Failed to retrieve students"⟩, db, cache,
        [.redisGet "students", .dbFind "students"]⟩
    | some students =>
      ⟨⟨StatusOK, .students students⟩, db,
        (redisSet f now "students" (cdc.argStudents students) ttl cache).getD cache,
        [.redisGet "students", .dbFind "students",
          .redisSet "students" (cdc.argStudents students) ttl]⟩
  | .fail =>
    ⟨⟨StatusInternalServerError, .error "Error retrieving from cache"⟩, db, cache,
      [.redisGet "students"]⟩
  | .hit val =>
    match cdc.unmarshalStudents val with
    | none =>
      ⟨⟨StatusInternalServerError, .error "Failed to unmarshal students from cache"⟩,
        db, cache, [.redisGet "students"]⟩
    | some students => ⟨⟨StatusOK, .students students⟩, db, cache, [.redisGet "students"]⟩

/-- Handler `GetStudentByID` (lines 94-115). -/
def GetStudentByID (cdc : Codec) (f : Faults) (now : Nat) (id : PathID)
    (db : DB) (cache : Cache) : Result :=
  let key := "student:" ++ id.text
  match redisGet f now key cache with
  | .miss =>
    match dbFirstStudent f id.value db with
    | none =>
      ⟨⟨StatusNotFound, .error "Student not found"⟩, db, cache,
        [.redisGet key, .dbFirst "students" id.value]⟩
    | some student =>
      ⟨⟨StatusOK, .student student⟩, db,
        (redisSet f now key (cdc.argStudent student) ttl cache).getD cache,
        [.redisGet key, .dbFirst "students" id.value, .redisSet key (cdc.argStudent student) ttl]⟩
  | .fail =>
    ⟨⟨StatusInternalServerError, .error "Error retrieving from cache"⟩, db, cache,
      [.redisGet key]⟩
  | .hit val =>
    match cdc.unmarshalStudent val with
    | none =>
      ⟨⟨StatusInternalServerError, .error "Failed to unmarshal student from cache"⟩,
        db, cache, [.redisGet key]⟩
    | some student => ⟨⟨StatusOK, .student student⟩, db, cache, [.redisGet key]⟩

/-- Binding of a JSON object onto the loaded student: present keys overwrite. -/
def bindPatch (s : Student) (p : StudentPatch) : Student :=
  { s with
    Name := p.Name.getD s.Name
    Age := p.Age.getD s.Age
    Email := p.Email.getD s.Email
    ClassID := p.ClassID.getD s.ClassID }

/-- Handler `UpdateStudent` (lines 126-143). -/
def UpdateStudent (cdc : Codec) (f : Faults) (now : Nat) (id : PathID)
    (body : Except String StudentPatch) (db : DB) (cache : Cache) : Result :=
  match dbFirstStudent f id.value db with
  | none =>
    ⟨⟨StatusNotFound, .error "Student not found"⟩, db, cache, [.dbFirst "students" id.value]⟩
  | some loaded =>
    match body with
    | .error _ =>
      ⟨⟨StatusBadRequest, .error "Invalid request data"⟩, db, cache,
        [.dbFirst "students" id.value]⟩
    | .ok p =>
      let student := bindPatch loaded p
      match dbSaveStudent f now student db with
      | none =>
        ⟨⟨StatusInternalServerError, .error "Failed to update student"⟩, db, cache,
          [.dbFirst "students" id.value, .dbSave "students" student.ID]⟩
      | some (saved, db1) =>
        let key := "student:" ++ Itoa (goInt saved.ID)
        ⟨⟨StatusOK, .studentObj saved⟩, db1,
          (redisSet f now key (cdc.argStudent saved) ttl cache).getD cache,
          [.dbFirst "students" id.value, .dbSave "students" student.ID,
            .redisSet key (cdc.argStudent saved) ttl]⟩

/-- Handler `DeleteStudent` (lines 151-164). -/
def DeleteStudent (f : Faults) (now : Nat) (id : PathID) (db : DB) (cache : Cache) : Result :=
  match dbFirstStudent f id.value db with
  | none =>
    ⟨⟨StatusNotFound, .error "Student not found"⟩, db, cache, [.dbFirst "students" id.value]⟩
  | some student =>
    match dbDeleteStudent f now student db with
    | none =>
      ⟨⟨StatusInternalServerError, .error "Failed to delete student"⟩, db, cache,
        [.dbFirst "students" id.value, .dbDelete "students" student.ID]⟩
    | some db1 =>
      let keys := ["student:" ++ id.text]
      ⟨⟨StatusOK, .message "Student deleted successfully"⟩, db1, redisDel f keys cache,
        [.dbFirst "students" id.value, .dbDelete "students" student.ID, .redisDel keys]⟩

/-! ## Sequential runs of student requests and the capacity invariant -/

/-- A create or a delete request on students, with its clock and its faults. -/
inductive StudentRequest where
  | create (f : Faults) (now : Nat) (body : Except String StudentBody)
  | delete (f : Faults) (now : Nat) (id : PathID)

/-- The enrolment count query of the request answers (a delete makes none). -/
def StudentRequest.countAnswers : StudentRequest → Bool
  | .create f _ _ => !f.dbCount
  | .delete _ _ _ => true

/-- One request run to completion on a store and a cache. -/
def serve (cdc : Codec) (r : StudentRequest) (w : DB × Cache) : DB × Cache :=
  match r with
  | .create f now body =>
    ((CreateStudent cdc f now body w.1 w.2).db, (CreateStudent cdc f now body w.1 w.2).cache)
  | .delete f now id =>
    ((DeleteStudent f now id w.1 w.2).db, (DeleteStudent f now id w.1 w.2).cache)

/-- Requests run one after the other. -/
def serveAll (cdc : Codec) (rs : List StudentRequest) (w : DB × Cache) : DB × Cache :=
  rs.foldl (fun acc r => serve cdc r acc) w

/-- Primary key of the classes table: no two rows carry the same id. -/
def classKeysUnique (db : DB) : Prop := (db.classes.map Class.ID).Nodup

/-- Capacity invariant: every class a query sees holds at most `Capacity`
enrolled students. -/
def capacityInvariant (db : DB) : Prop :=
  ∀ c ∈ db.classes, c.DeletedAt = none → ((enrolled db c.ID).length : Int) ≤ c.Capacity

instance (db : DB) : Decidable (classKeysUnique db) := by
  unfold classKeysUnique; infer_instance

instance (db : DB) : Decidable (capacityInvariant db) := by
  unfold capacityInvariant; infer_instance

/-- The classes a list query sees in the store, each with its enrolled
students. -/
def storedClasses (db : DB) : List Class :=
  (db.classes.filter (fun c => decide (c.DeletedAt = none))).map
    (fun c => { c with Students := enrolled db c.ID })

/-! ## Sample data for the scenarios -/

/-- A class of capacity 2. -/
def mathClass : Class := ⟨1, 0, 0, none, "Math 101", "Jane Smith", 2, []⟩

/-- A store holding `mathClass` and no student. -/
def emptyRoster : DB := ⟨[mathClass], [], 2, 1⟩

/-- A class of capacity 3 with id 5. -/
def physicsClass : Class := ⟨5, 0, 0, none, "Physics", "Ann Lee", 3, []⟩

/-- A student enrolled in `physicsClass`. -/
def dave : Student := ⟨1, 5, 5, none, "Dave", 23, "dave@example.com", 5⟩

/-- A store holding `physicsClass` with its one student. -/
def physicsRoster : DB := ⟨[physicsClass], [dave], 6, 2⟩

/-- A codec used in the scenarios: it renders a class by its name and reads
the text `Physics` back as `physicsClass` with its student, and reads the
text `roster` back as the empty list of students.  The cache client refuses a
student or a list of students handed to `Set`, as go-redis does for any value
that is neither text, bytes, a number nor a binary marshaler. -/
def demoCodec : Codec where
  marshalClass := fun c => c.Name
  marshalClasses := fun _ => "all"
  unmarshalClass := fun v =>
    if v = "Physics" then some { physicsClass with Students := [dave] } else none
  unmarshalClasses := fun _ => none
  unmarshalStudent := fun _ => none
  unmarshalStudents := fun v => if v = "roster" then some [] else none
  argStudent := fun _ => none
  argStudents := fun _ => none

/-- A cache holding older copies under the two class keys and under the
students key. -/
def staleCache : Cache :=
  [⟨"classes", "old list", 1000⟩, ⟨"class:1", "old class", 1000⟩,
    ⟨"students", "roster", 1000⟩]

/-- A cache whose four read keys hold text that does not deserialize. -/
def corruptCache : Cache :=
  [⟨"classes", "garbage", 1000⟩, ⟨"class:1", "garbage", 1000⟩,
    ⟨"students", "garbage", 1000⟩, ⟨"student:1", "garbage", 1000⟩]

/-- A request whose store insert fails. -/
def insertFails : Faults := { noFaults with dbCreate := true, errText := "connection refused" }

/-- A request whose store list query fails. -/
def findFails : Faults := { noFaults with dbFind := true, errText := "connection refused" }

/-- A request whose cache delete fails. -/
def delFails : Faults := { noFaults with redisDel := true }

/-- The cache after class 5 of `physicsRoster` was read once at instant 50:
it holds the copy of the class under "class:5" until instant 650. -/
def physicsCached : Cache :=
  (GetClassByID demoCodec noFaults 50 ⟨"5", 5⟩ physicsRoster []).cache

/-- A request whose cache write fails. -/
def setFails : Faults := { noFaults with redisSet := true }

def alice : StudentBody := ⟨"Alice", 20, "alice@example.com", 1⟩
def bob : StudentBody := ⟨"Bob", 21, "bob@example.com", 1⟩
def carol : StudentBody := ⟨"Carol", 22, "carol@example.com", 1⟩

/-- The store and cache after Alice and Bob were created in `mathClass`. -/
def twoEnrolled : DB × Cache :=
  serveAll demoCodec
    [.create noFaults 10 (.ok alice), .create noFaults 20 (.ok bob)] (emptyRoster, [])

/-- A store with `mathClass` full (Alice and Bob) and Dave, under id 3, in
`physicsClass`. -/
def campus : DB :=
  ⟨[mathClass, physicsClass], twoEnrolled.1.students ++ [{ dave with ID := 3 }], 6, 4⟩

/-- The classes of `campus` with other capacities, names and teachers. -/
def campusRelabelled : List Class :=
  [{ mathClass with Capacity := 0, Name := "M" }, { physicsClass with Capacity := 100 }]

/-- An update body that only changes the class of the student to class 1. -/
def moveToMath : StudentPatch := ⟨none, none, none, some 1⟩

/-- A request whose enrolment count query fails. -/
def countFails : Faults := { noFaults with dbCount := true }

/-! ## Lemmas on the store calls -/

theorem find_class_of_mem {db : DB} {c : Class} (hu : classKeysUnique db)
    (hc : c ∈ db.classes) (hl : c.DeletedAt = none) :
    db.classes.find? (fun r => decide (r.ID = c.ID ∧ r.DeletedAt = none)) = some c := by
  cases hfind : db.classes.find? (fun r => decide (r.ID = c.ID ∧ r.DeletedAt = none)) with
  | none =>
    have h := List.find?_eq_none.mp hfind c hc
    simp [hl] at h
  | some r =>
    have hr : r ∈ db.classes := List.mem_of_find?_eq_some hfind
    have hp := List.find?_some hfind
    simp at hp
    have : r = c := List.inj_on_of_nodup_map hu hr hc hp.1
    rw [this]

theorem dbCreateStudent_classes (f : Faults) (now : Nat) (b : StudentBody) (db : DB) :
    (dbCreateStudent f now b db).2.classes = db.classes := by
  unfold dbCreateStudent
  split
  · rfl
  · dsimp only
    split
    · rfl
    · split <;> rfl

theorem dbCreateStudent_students (f : Faults) (now : Nat) (b : StudentBody) (db : DB) :
    ((dbCreateStudent f now b db).1 = none ∧
        (dbCreateStudent f now b db).2.students = db.students) ∨
    ∃ s, (dbCreateStudent f now b db).1 = some s ∧ s.ClassID = b.ClassID ∧
      s.DeletedAt = none ∧ s.ID = db.studentSeq ∧
      (dbCreateStudent f now b db).2.students = db.students ++ [s] := by
  unfold dbCreateStudent
  split
  · exact Or.inl ⟨rfl, rfl⟩
  · dsimp only
    split
    · exact Or.inl ⟨rfl, rfl⟩
    · split
      · exact Or.inl ⟨rfl, rfl⟩
      · exact Or.inr ⟨_, rfl, rfl, rfl, rfl, rfl⟩

theorem enrolled_congr {db db1 : DB} (h : db1.students = db.students) (k : Nat) :
    enrolled db1 k = enrolled db k := by
  unfold enrolled; rw [h]

theorem enrolled_append {db db1 : DB} {s : Student} (h : db1.students = db.students ++ [s])
    (k : Nat) :
    (enrolled db1 k).length =
      (enrolled db k).length + (if s.ClassID = k ∧ s.DeletedAt = none then 1 else 0) := by
  unfold enrolled
  rw [h, List.filter_append, List.length_append]
  congr 1
  by_cases hk : s.ClassID = k ∧ s.DeletedAt = none
  · simp [List.filter, hk]
  · simp [List.filter, hk]

theorem enrolled_soft_delete (db : DB) (id now k : Nat) :
    (List.filter (fun s => decide (s.ClassID = k ∧ s.DeletedAt = none))
      (db.students.map (fun r =>
        if r.ID = id ∧ r.DeletedAt = none then { r with DeletedAt := some now } else r))).length
      ≤ (enrolled db k).length := by
  unfold enrolled
  rw [← List.countP_eq_length_filter, ← List.countP_eq_length_filter, List.countP_map]
  apply List.countP_mono_left
  intro r _ hr
  by_cases hd : r.ID = id ∧ r.DeletedAt = none
  · simp [hd] at hr
  · simpa [hd] using hr

/-! ## Lemmas on the student handlers -/

theorem CreateStudent_db (cdc : Codec) (f : Faults) (now : Nat)
    (body : Except String StudentBody) (db : DB) (cache : Cache) :
    (CreateStudent cdc f now body db cache).db = db ∨
    ∃ b cls, body = .ok b ∧ dbFirstClass f b.ClassID db = some cls ∧
      dbCountStudents f b.ClassID db < cls.Capacity ∧
      (CreateStudent cdc f now body db cache).db = (dbCreateStudent f now b db).2 := by
  unfold CreateStudent
  split
  · exact Or.inl rfl
  · rename_i b
    split
    · exact Or.inl rfl
    · rename_i cls hcls
      dsimp only
      split
      · exact Or.inl rfl
      · rename_i hroom
        refine Or.inr ⟨b, cls, rfl, hcls, lt_of_not_ge hroom, ?_⟩
        split
        · rename_i db1 heq
          rw [heq]
        · rename_i st db1 heq
          split <;> rw [heq]

theorem DeleteStudent_db (f : Faults) (now : Nat) (id : PathID) (db : DB) (cache : Cache) :
    (DeleteStudent f now id db cache).db = db ∨
    ∃ s : Student, (DeleteStudent f now id db cache).db = { db with students := (db.students.map
      (fun r => if r.ID = s.ID ∧ r.DeletedAt = none then { r with DeletedAt := some now } else r)) } := by
  unfold DeleteStudent
  split
  · exact Or.inl rfl
  · rename_i s _
    split
    · exact Or.inl rfl
    · rename_i db1 heq
      refine Or.inr ⟨s, ?_⟩
      unfold dbDeleteStudent at heq
      split at heq
      · cases heq
      · simpa using heq.symm

theorem serve_classes (cdc : Codec) (r : StudentRequest) (w : DB × Cache) :
    (serve cdc r w).1.classes = w.1.classes := by
  cases r with
  | create f now body =>
    show (CreateStudent cdc f now body w.1 w.2).db.classes = w.1.classes
    rcases CreateStudent_db cdc f now body w.1 w.2 with h | ⟨b, cls, _, _, _, h⟩
    · rw [h]
    · rw [h, dbCreateStudent_classes]
  | delete f now id =>
    show (DeleteStudent f now id w.1 w.2).db.classes = w.1.classes
    rcases DeleteStudent_db f now id w.1 w.2 with h | ⟨s, h⟩
    · rw [h]
    · rw [h]

theorem serve_capacity (cdc : Codec) (r : StudentRequest) (w : DB × Cache)
    (hu : classKeysUnique w.1) (hinv : capacityInvariant w.1)
    (hr : r.countAnswers = true) : capacityInvariant (serve cdc r w).1 := by
  intro c hc hl
  rw [serve_classes] at hc
  have hold := hinv c hc hl
  cases r with
  | create f now body =>
    show (((enrolled (CreateStudent cdc f now body w.1 w.2).db c.ID).length : Nat) : Int)
      ≤ c.Capacity
    rcases CreateStudent_db cdc f now body w.1 w.2 with h | ⟨b, cls, _, hcls, hroom, h⟩
    · rw [h]; exact hold
    · rw [h]
      rcases dbCreateStudent_students f now b w.1 with ⟨_, hs⟩ | ⟨s, _, hsc, hsl, _, hs⟩
      · rw [enrolled_congr hs]; exact hold
      · rw [enrolled_append hs]
        by_cases hk : s.ClassID = c.ID ∧ s.DeletedAt = none
        · rw [if_pos hk]
          have hbc : b.ClassID = c.ID := by rw [← hsc]; exact hk.1
          have hcount : f.dbCount = false := by simpa [StudentRequest.countAnswers] using hr
          unfold dbFirstClass at hcls
          split at hcls
          · cases hcls
          · rw [hbc, find_class_of_mem hu hc hl] at hcls
            simp at hcls
            unfold dbCountStudents at hroom
            rw [hcount, hbc, ← hcls] at hroom
            simp at hroom
            push_cast
            omega
        · rw [if_neg hk]; simpa using hold
  | delete f now id =>
    show (((enrolled (DeleteStudent f now id w.1 w.2).db c.ID).length : Nat) : Int)
      ≤ c.Capacity
    rcases DeleteStudent_db f now id w.1 w.2 with h | ⟨s, h⟩
    · rw [h]; exact hold
    · rw [h]
      have := enrolled_soft_delete w.1 s.ID now c.ID
      have h2 : ((enrolled { w.1 with students := (w.1.students.map
          (fun r => if r.ID = s.ID ∧ r.DeletedAt = none then { r with DeletedAt := some now }
            else r)) } c.ID).length : Int) ≤ ((enrolled w.1 c.ID).length : Int) := by
        exact_mod_cast this
      exact le_trans h2 hold

theorem serve_keys (cdc : Codec) (r : StudentRequest) (w : DB × Cache)
    (hu : classKeysUnique w.1) : classKeysUnique (serve cdc r w).1 := by
  unfold classKeysUnique
  rw [serve_classes]
  exact hu

/-! ## Capacity -/

theorem serveAll_invariant (cdc : Codec) (rs : List StudentRequest) (w : DB × Cache)
    (hkeys : classKeysUnique w.1) (hinv : capacityInvariant w.1)
    (hcount : ∀ r ∈ rs, r.countAnswers = true) :
    classKeysUnique (serveAll cdc rs w).1 ∧ capacityInvariant (serveAll cdc rs w).1 := by
  induction rs generalizing w with
  | nil => exact ⟨hkeys, hinv⟩
  | cons r rs ih =>
    have hr : r.countAnswers = true := hcount r (List.mem_cons_self r rs)
    have hrest : ∀ q ∈ rs, q.countAnswers = true :=
      fun q hq => hcount q (List.mem_cons_of_mem r hq)
    exact ih (serve cdc r w) (serve_keys cdc r w hkeys)
      (serve_capacity cdc r w hkeys hinv hr) hrest

/-- A run of student requests keeps the capacity invariant when the enrolment
count query of every create answers (bodies carry the columns of the student
only). -/
theorem capacity_kept_when_counts_answer (cdc : Codec) (rs : List StudentRequest)
    (db : DB) (cache : Cache)
    (hkeys : classKeysUnique db) (hinv : capacityInvariant db)
    (hcount : ∀ r ∈ rs, r.countAnswers = true) :
    capacityInvariant (serveAll cdc rs (db, cache)).1 :=
  (serveAll_invariant cdc rs (db, cache) hkeys hinv hcount).2

/-- C1, the code at a run that breaks the capacity invariant: on the store
holding a class of capacity 2 with its two students, which satisfies the
invariant, one `CreateStudent` whose enrolment count query fails is run to
completion; the error of the query is not looked at, the counter stays at
zero, the student is inserted, and the class ends with three enrolled
students. -/
theorem capacity_exceeded_when_count_fails :
    classKeysUnique twoEnrolled.1 ∧ capacityInvariant twoEnrolled.1 ∧
    mathClass ∈ twoEnrolled.1.classes ∧ mathClass.Capacity = 2 ∧
    (enrolled twoEnrolled.1 1).length = 2 ∧
    (enrolled (serveAll demoCodec [.create countFails 30 (.ok carol)] twoEnrolled).1 1).length
      = 3 ∧
    ¬ capacityInvariant
      (serveAll demoCodec [.create countFails 30 (.ok carol)] twoEnrolled).1 := by
  decide

/-- A create for a full class is rejected when the count query answers: 400
with the text "Cannot add student: class is full", the two store reads only,
store and cache as they were. -/
theorem CreateStudent_full (cdc : Codec) (f : Faults) (now : Nat)
    (b : StudentBody) (db : DB) (cache : Cache) (c : Class)
    (hclass : dbFirstClass f b.ClassID db = some c)
    (hcount : f.dbCount = false)
    (hfull : c.Capacity ≤ ((enrolled db b.ClassID).length : Int)) :
    CreateStudent cdc f now (.ok b) db cache =
      ⟨⟨400, .error "Cannot add student: class is full"⟩, db, cache,
        [.dbFirst "classes" b.ClassID, .dbCount "students" b.ClassID]⟩ := by
  have hge : dbCountStudents f b.ClassID db ≥ c.Capacity := by
    unfold dbCountStudents
    rw [hcount]
    simpa using hfull
  simp only [CreateStudent, hclass, hge, if_true, StatusBadRequest]

/-- C2, the code at a create for a full class: the class of capacity 2 holds
two students and the lookup of the class answers; when the enrolment count
query fails, `CreateStudent` does not answer 400: it inserts the third student
and answers 500 "Failed to cache student"; when the query answers it
answers 400 "Cannot add student: class is full" and changes nothing. -/
theorem full_class_create_goes_through_when_count_fails :
    dbFirstClass countFails carol.ClassID twoEnrolled.1 = some mathClass ∧
    mathClass.Capacity ≤ ((enrolled twoEnrolled.1 carol.ClassID).length : Int) ∧
    (CreateStudent demoCodec countFails 30 (.ok carol) twoEnrolled.1 twoEnrolled.2).resp =
      ⟨500, .error "Failed to cache student"⟩ ∧
    (CreateStudent demoCodec countFails 30 (.ok carol) twoEnrolled.1 twoEnrolled.2).db.students =
      twoEnrolled.1.students ++ [⟨3, 30, 30, none, "Carol", 22, "carol@example.com", 1⟩] ∧
    CreateStudent demoCodec noFaults 30 (.ok carol) twoEnrolled.1 twoEnrolled.2 =
      ⟨⟨400, .error "Cannot add student: class is full"⟩, twoEnrolled.1, twoEnrolled.2,
        [.dbFirst "classes" 1, .dbCount "students" 1]⟩ := by
  decide

/-! ## Class lookups before and after a write -/

theorem dbFirstClassPreload_some {f : Faults} {id : Nat} {db : DB} {cls : Class}
    (h : dbFirstClassPreload f id db = some cls) :
    f.dbFirst = false ∧ cls.ID = id ∧ cls.DeletedAt = none ∧
      cls.Students = enrolled db id ∧
      ∃ row, db.classes.find? (fun c => decide (c.ID = id ∧ c.DeletedAt = none)) = some row ∧
        cls = { row with Students := enrolled db row.ID } := by
  unfold dbFirstClassPreload at h
  split at h
  · cases h
  · rename_i hf
    cases hrow : db.classes.find? (fun c => decide (c.ID = id ∧ c.DeletedAt = none)) with
    | none => rw [hrow] at h; cases h
    | some row =>
      rw [hrow] at h
      have hp := List.find?_some hrow
      simp at hp
      simp at h
      subst h
      exact ⟨by simpa using hf, hp.1, hp.2, by simp [hp.1], row, rfl, rfl⟩

theorem find_after_save (l : List Class) (id : Nat) (c1 row : Class)
    (hid : c1.ID = id) (hl : c1.DeletedAt = none)
    (h : l.find? (fun c => decide (c.ID = id ∧ c.DeletedAt = none)) = some row) :
    (l.map (fun r => if r.ID = id ∧ r.DeletedAt = none then c1 else r)).find?
      (fun c => decide (c.ID = id ∧ c.DeletedAt = none)) = some c1 := by
  induction l with
  | nil => simp at h
  | cons a l ih =>
    by_cases ha : a.ID = id ∧ a.DeletedAt = none
    · simp [List.find?, ha, hid, hl]
    · have hrest : l.find? (fun c => decide (c.ID = id ∧ c.DeletedAt = none)) = some row := by
        simpa [List.find?, ha] using h
      have hd : decide (a.ID = id ∧ a.DeletedAt = none) = false := by simpa using ha
      rw [List.map_cons, if_neg ha, List.find?_cons, hd]
      exact ih hrest

theorem find_after_delete (l : List Class) (id now : Nat) :
    (l.map (fun r =>
      if r.ID = id ∧ r.DeletedAt = none then { r with DeletedAt := some now } else r)).find?
      (fun c => decide (c.ID = id ∧ c.DeletedAt = none)) = none := by
  rw [List.find?_eq_none]
  intro x hx
  rw [List.mem_map] at hx
  obtain ⟨r, _, rfl⟩ := hx
  by_cases hr : r.ID = id ∧ r.DeletedAt = none
  · simp [hr]
  · simp [hr]

theorem UpdateClass_saved (f : Faults) (now : Nat) (id : PathID) (r : ClassBody)
    (db : DB) (cache : Cache) (cls : Class)
    (hcls : dbFirstClassPreload f id.value db = some cls)
    (hge : (cls.Students.length : Int) ≤ r.Capacity) (hsave : f.dbSave = false) :
    UpdateClass f now id (.ok r) db cache =
      ⟨⟨200, .classObj { cls with
          Name := r.Name, Teacher := r.Teacher, Capacity := r.Capacity, UpdatedAt := now }⟩,
        { db with classes := (db.classes.map (fun row =>
            if row.ID = cls.ID ∧ row.DeletedAt = none then
              { cls with
                Name := r.Name, Teacher := r.Teacher, Capacity := r.Capacity, UpdatedAt := now,
                Students := [] }
            else row)) },
        redisDel f ["class:" ++ id.text, "classes"] cache,
        [.dbFirst "classes" id.value, .dbSave "classes" cls.ID,
          .redisDel ["class:" ++ id.text, "classes"]]⟩ := by
  have hnlt : ¬ r.Capacity < (cls.Students.length : Int) := not_lt.mpr hge
  simp only [UpdateClass, hcls, hnlt, if_false, dbSaveClass, hsave, StatusOK]
  rfl

/-- C3. Capacity floor on update: for a class found with its `n` enrolled
students and a well-formed body, `UpdateClass` answers 400 and leaves store and
cache untouched when the requested capacity is below `n`; when it is at least
`n` (in particular equal to `n`) and the save succeeds it answers 200 and the
stored class carries the requested name, teacher and capacity. -/
theorem update_class_capacity_floor (f : Faults) (now : Nat) (id : PathID) (r : ClassBody)
    (db : DB) (cache : Cache) (cls : Class)
    (hcls : dbFirstClassPreload f id.value db = some cls) :
    cls.Students = enrolled db id.value ∧
    (r.Capacity < (cls.Students.length : Int) →
      (UpdateClass f now id (.ok r) db cache).resp.status = 400 ∧
      (UpdateClass f now id (.ok r) db cache).db = db ∧
      (UpdateClass f now id (.ok r) db cache).cache = cache) ∧
    ((cls.Students.length : Int) ≤ r.Capacity → f.dbSave = false →
      (UpdateClass f now id (.ok r) db cache).resp =
        ⟨200, .classObj { cls with
          Name := r.Name, Teacher := r.Teacher, Capacity := r.Capacity, UpdatedAt := now }⟩ ∧
      dbFirstClass noFaults id.value (UpdateClass f now id (.ok r) db cache).db =
        some { cls with
          Name := r.Name, Teacher := r.Teacher, Capacity := r.Capacity, UpdatedAt := now,
          Students := [] }) := by
  obtain ⟨_, hid, hlive, hst, row, hrow, _⟩ := dbFirstClassPreload_some hcls
  refine ⟨hst, ?_, ?_⟩
  · intro hlt
    simp only [UpdateClass, hcls, hlt, if_true, StatusBadRequest]
    exact ⟨trivial, trivial, trivial⟩
  · intro hge hsave
    rw [UpdateClass_saved f now id r db cache cls hcls hge hsave]
    refine ⟨rfl, ?_⟩
    simp only [dbFirstClass, noFaults, hid]
    rw [find_after_save db.classes id.value
      ⟨id.value, cls.CreatedAt, now, cls.DeletedAt, r.Name, r.Teacher, r.Capacity, []⟩
      row rfl hlive hrow]
    rfl

/-- Witness of C3 on the class of capacity 2 holding two students: capacity 1
is refused, capacity 2 is accepted. -/
theorem update_class_capacity_floor_witness :
    (UpdateClass noFaults 60 ⟨"1", 1⟩ (.ok ⟨"Math 102", "John", 1⟩)
      twoEnrolled.1 twoEnrolled.2).resp.status = 400 ∧
    (UpdateClass noFaults 60 ⟨"1", 1⟩ (.ok ⟨"Math 102", "John", 2⟩)
      twoEnrolled.1 twoEnrolled.2).resp.status = 200 :=
  ⟨((update_class_capacity_floor noFaults 60 ⟨"1", 1⟩ ⟨"Math 102", "John", 1⟩
      twoEnrolled.1 twoEnrolled.2 { mathClass with Students := enrolled twoEnrolled.1 1 }
      (by decide)).2.1 (by decide)).1,
    congrArg Response.status
      ((update_class_capacity_floor noFaults 60 ⟨"1", 1⟩ ⟨"Math 102", "John", 2⟩
        twoEnrolled.1 twoEnrolled.2 { mathClass with Students := enrolled twoEnrolled.1 1 }
        (by decide)).2.2 (by decide) rfl).1⟩

/-! ## Cache lemmas -/

theorem redisGet_miss_of_absent (g : Faults) (now : Nat) (k : String) (cache : Cache)
    (hget : g.redisGet = false) (habs : ∀ e ∈ cache, e.key ≠ k) :
    redisGet g now k cache = .miss := by
  unfold redisGet
  rw [hget]
  have : cache.find? (fun e => decide (e.key = k ∧ now < e.expiresAt)) = none := by
    rw [List.find?_eq_none]
    intro e he
    simp [habs e he]
  rw [this]
  rfl

theorem redisDel_absent (f : Faults) (ks : List String) (cache : Cache) (k : String)
    (hdel : f.redisDel = false) (hk : k ∈ ks) :
    ∀ e ∈ redisDel f ks cache, e.key ≠ k := by
  intro e he
  unfold redisDel at he
  rw [hdel] at he
  simp at he
  intro hek
  exact he.2 (hek ▸ hk)

theorem GetClasses_miss (cdc : Codec) (g : Faults) (now : Nat) (db : DB) (cache : Cache)
    (hmiss : redisGet g now "classes" cache = .miss) (hfind : g.dbFind = false) :
    (GetClasses cdc g now db cache).resp = ⟨200, .classesObj (storedClasses db)⟩ := by
  simp only [GetClasses, hmiss, dbFindClasses, hfind]
  rfl

theorem GetClassByID_miss (cdc : Codec) (g : Faults) (now : Nat) (id : PathID) (db : DB) (cache : Cache)
    (hmiss : redisGet g now ("class:" ++ id.text) cache = .miss) :
    (GetClassByID cdc g now id db cache).resp =
      match dbFirstClassPreload g id.value db with
      | none => ⟨404, .error "Class not found"⟩
      | some cls => ⟨200, .classObj cls⟩ := by
  simp only [GetClassByID, hmiss]
  cases dbFirstClassPreload g id.value db <;> rfl

/-! ## Successful class mutations -/

theorem CreateClass_created (f : Faults) (now : Nat) (body : Except String ClassBody)
    (db : DB) (cache : Cache)
    (h : (CreateClass f now body db cache).resp.status = 201) :
    (CreateClass f now body db cache).cache = redisDel f ["classes"] cache := by
  unfold CreateClass at h ⊢
  split at h
  · simp [StatusBadRequest] at h
  · split at h
    · simp [StatusBadRequest] at h
    · rename_i heq
      simp only [heq]

theorem UpdateClass_updated (f : Faults) (now : Nat) (id : PathID) (body : Except String ClassBody)
    (db : DB) (cache : Cache)
    (h : (UpdateClass f now id body db cache).resp.status = 200) :
    ∃ r cls, body = .ok r ∧ dbFirstClassPreload f id.value db = some cls ∧
      (cls.Students.length : Int) ≤ r.Capacity ∧ f.dbSave = false := by
  unfold UpdateClass at h
  split at h
  · simp [StatusBadRequest] at h
  · rename_i r
    split at h
    · simp [StatusNotFound] at h
    · rename_i cls hcls
      dsimp only at h
      split at h
      · simp [StatusBadRequest] at h
      · rename_i hnlt
        refine ⟨r, cls, rfl, hcls, not_lt.mp hnlt, ?_⟩
        cases hs : f.dbSave with
        | false => rfl
        | true => simp [dbSaveClass, hs, StatusInternalServerError] at h

theorem DeleteClass_deleted (f : Faults) (now : Nat) (id : PathID) (db : DB) (cache : Cache)
    (h : (DeleteClass f now id db cache).resp.status = 200) :
    ∃ cls, dbFirstClassPreload f id.value db = some cls ∧
      (DeleteClass f now id db cache).db = { db with classes := (db.classes.map (fun r =>
        if r.ID = cls.ID ∧ r.DeletedAt = none then { r with DeletedAt := some now } else r)) } ∧
      (DeleteClass f now id db cache).cache =
        redisDel f ["class:" ++ id.text, "classes"] cache := by
  cases hcls : dbFirstClassPreload f id.value db with
  | none => simp [DeleteClass, hcls, StatusNotFound] at h
  | some cls =>
    refine ⟨cls, rfl, ?_⟩
    cases hs : f.dbDelete with
    | true => simp [DeleteClass, hcls, dbDeleteClass, hs, StatusInternalServerError] at h
    | false => simp [DeleteClass, hcls, dbDeleteClass, hs]

/-! ## Reads that follow a class mutation -/

theorem fresh_after_create (cdc : Codec) (f g : Faults) (now later : Nat)
    (body : Except String ClassBody) (db : DB) (cache : Cache)
    (hdel : f.redisDel = false) (hget : g.redisGet = false) (hfind : g.dbFind = false)
    (h : (CreateClass f now body db cache).resp.status = 201) :
    (∀ e ∈ (CreateClass f now body db cache).cache, e.key ≠ "classes") ∧
    (GetClasses cdc g later (CreateClass f now body db cache).db
        (CreateClass f now body db cache).cache).resp =
      ⟨200, .classesObj (storedClasses (CreateClass f now body db cache).db)⟩ := by
  have habs : ∀ e ∈ (CreateClass f now body db cache).cache, e.key ≠ "classes" := by
    rw [CreateClass_created f now body db cache h]
    exact redisDel_absent f _ cache "classes" hdel (by simp)
  exact ⟨habs, GetClasses_miss cdc g later _ _
    (redisGet_miss_of_absent g later _ _ hget habs) hfind⟩

theorem fresh_after_update (cdc : Codec) (f g : Faults) (now later : Nat) (id : PathID)
    (body : Except String ClassBody) (db : DB) (cache : Cache)
    (hdel : f.redisDel = false) (hget : g.redisGet = false) (hfind : g.dbFind = false)
    (hfirst : g.dbFirst = false)
    (h : (UpdateClass f now id body db cache).resp.status = 200) :
    (∀ e ∈ (UpdateClass f now id body db cache).cache,
      e.key ≠ "classes" ∧ e.key ≠ "class:" ++ id.text) ∧
    (GetClasses cdc g later (UpdateClass f now id body db cache).db
        (UpdateClass f now id body db cache).cache).resp =
      ⟨200, .classesObj (storedClasses (UpdateClass f now id body db cache).db)⟩ ∧
    ∃ c, dbFirstClassPreload noFaults id.value (UpdateClass f now id body db cache).db = some c ∧
      (GetClassByID cdc g later id (UpdateClass f now id body db cache).db
        (UpdateClass f now id body db cache).cache).resp = ⟨200, .classObj c⟩ := by
  obtain ⟨r, cls, rfl, hcls, hge, hsave⟩ := UpdateClass_updated f now id body db cache h
  obtain ⟨_, hid, hlive, _, row, hrow, _⟩ := dbFirstClassPreload_some hcls
  have heq := UpdateClass_saved f now id r db cache cls hcls hge hsave
  have hcache : (UpdateClass f now id (.ok r) db cache).cache =
      redisDel f ["class:" ++ id.text, "classes"] cache := by rw [heq]
  have habs1 : ∀ e ∈ (UpdateClass f now id (.ok r) db cache).cache, e.key ≠ "classes" := by
    rw [hcache]
    exact redisDel_absent f _ cache "classes" hdel (by simp)
  have habs2 : ∀ e ∈ (UpdateClass f now id (.ok r) db cache).cache,
      e.key ≠ "class:" ++ id.text := by
    rw [hcache]
    exact redisDel_absent f _ cache _ hdel (by simp)
  have hfound : ∀ q : Faults, q.dbFirst = false →
      dbFirstClassPreload q id.value (UpdateClass f now id (.ok r) db cache).db =
        some { cls with
          Name := r.Name, Teacher := r.Teacher, Capacity := r.Capacity, UpdatedAt := now,
          Students := enrolled (UpdateClass f now id (.ok r) db cache).db id.value } := by
    intro q hq
    rw [heq]
    simp only [dbFirstClassPreload, hq, hid]
    rw [find_after_save db.classes id.value
      ⟨id.value, cls.CreatedAt, now, cls.DeletedAt, r.Name, r.Teacher, r.Capacity, []⟩
      row rfl hlive hrow]
    simp [hid]
  refine ⟨fun e he => ⟨habs1 e he, habs2 e he⟩, ?_, _, hfound noFaults rfl, ?_⟩
  · exact GetClasses_miss cdc g later _ _
      (redisGet_miss_of_absent g later _ _ hget habs1) hfind
  · rw [GetClassByID_miss cdc g later id _ _
      (redisGet_miss_of_absent g later _ _ hget habs2), hfound g hfirst]

theorem fresh_after_delete (cdc : Codec) (f g : Faults) (now later : Nat) (id : PathID)
    (db : DB) (cache : Cache)
    (hdel : f.redisDel = false) (hget : g.redisGet = false) (hfind : g.dbFind = false)
    (h : (DeleteClass f now id db cache).resp.status = 200) :
    (∀ e ∈ (DeleteClass f now id db cache).cache,
      e.key ≠ "classes" ∧ e.key ≠ "class:" ++ id.text) ∧
    (GetClasses cdc g later (DeleteClass f now id db cache).db
        (DeleteClass f now id db cache).cache).resp =
      ⟨200, .classesObj (storedClasses (DeleteClass f now id db cache).db)⟩ ∧
    dbFirstClassPreload noFaults id.value (DeleteClass f now id db cache).db = none ∧
    (GetClassByID cdc g later id (DeleteClass f now id db cache).db
        (DeleteClass f now id db cache).cache).resp = ⟨404, .error "Class not found"⟩ := by
  obtain ⟨cls, hcls, hdb, hcache⟩ := DeleteClass_deleted f now id db cache h
  obtain ⟨_, hid, _, _, _, _, _⟩ := dbFirstClassPreload_some hcls
  have habs1 : ∀ e ∈ (DeleteClass f now id db cache).cache, e.key ≠ "classes" := by
    rw [hcache]
    exact redisDel_absent f _ cache "classes" hdel (by simp)
  have habs2 : ∀ e ∈ (DeleteClass f now id db cache).cache,
      e.key ≠ "class:" ++ id.text := by
    rw [hcache]
    exact redisDel_absent f _ cache _ hdel (by simp)
  have hgone : ∀ q : Faults,
      dbFirstClassPreload q id.value (DeleteClass f now id db cache).db = none := by
    intro q
    rw [hdb, hid]
    simp only [dbFirstClassPreload]
    rw [find_after_delete db.classes id.value now]
    simp
  refine ⟨fun e he => ⟨habs1 e he, habs2 e he⟩, ?_, hgone noFaults, ?_⟩
  · exact GetClasses_miss cdc g later _ _
      (redisGet_miss_of_absent g later _ _ hget habs1) hfind
  · rw [GetClassByID_miss cdc g later id _ _
      (redisGet_miss_of_absent g later _ _ hget habs2), hgone g]

/-- C4, amended. No stale class read after a class mutation whose cache
delete succeeded: after a `CreateClass` answered 201, an `UpdateClass` answered
200 or a `DeleteClass` answered 200, the cache holds no entry under "classes"
(nor, for update and delete, under "class:" followed by the path text of the
request); the next `GetClasses` answers 200 with exactly the classes of the
store, each with its enrolled students; the next `GetClassByID` with the same
path text answers 200 with the record of the store after an update and 404
after a delete. -/
theorem no_stale_class_read (cdc : Codec) (f g : Faults) (now later : Nat) (id : PathID)
    (body : Except String ClassBody) (db : DB) (cache : Cache)
    (hdel : f.redisDel = false) (hget : g.redisGet = false) (hfind : g.dbFind = false)
    (hfirst : g.dbFirst = false) :
    ((CreateClass f now body db cache).resp.status = 201 →
      (∀ e ∈ (CreateClass f now body db cache).cache, e.key ≠ "classes") ∧
      (GetClasses cdc g later (CreateClass f now body db cache).db
          (CreateClass f now body db cache).cache).resp =
        ⟨200, .classesObj (storedClasses (CreateClass f now body db cache).db)⟩) ∧
    ((UpdateClass f now id body db cache).resp.status = 200 →
      (∀ e ∈ (UpdateClass f now id body db cache).cache,
        e.key ≠ "classes" ∧ e.key ≠ "class:" ++ id.text) ∧
      (GetClasses cdc g later (UpdateClass f now id body db cache).db
          (UpdateClass f now id body db cache).cache).resp =
        ⟨200, .classesObj (storedClasses (UpdateClass f now id body db cache).db)⟩ ∧
      ∃ c, dbFirstClassPreload noFaults id.value (UpdateClass f now id body db cache).db = some c ∧
        (GetClassByID cdc g later id (UpdateClass f now id body db cache).db
          (UpdateClass f now id body db cache).cache).resp = ⟨200, .classObj c⟩) ∧
    ((DeleteClass f now id db cache).resp.status = 200 →
      (∀ e ∈ (DeleteClass f now id db cache).cache,
        e.key ≠ "classes" ∧ e.key ≠ "class:" ++ id.text) ∧
      (GetClasses cdc g later (DeleteClass f now id db cache).db
          (DeleteClass f now id db cache).cache).resp =
        ⟨200, .classesObj (storedClasses (DeleteClass f now id db cache).db)⟩ ∧
      dbFirstClassPreload noFaults id.value (DeleteClass f now id db cache).db = none ∧
      (GetClassByID cdc g later id (DeleteClass f now id db cache).db
          (DeleteClass f now id db cache).cache).resp = ⟨404, .error "Class not found"⟩) :=
  ⟨fresh_after_create cdc f g now later body db cache hdel hget hfind,
    fresh_after_update cdc f g now later id body db cache hdel hget hfind hfirst,
    fresh_after_delete cdc f g now later id db cache hdel hget hfind⟩

/-- Witness of C4 on `staleCache`: after a create and after an update of class
1 the list is read from the store, after the update the record is read from
the store, after the deletion of class 1 the record is gone. -/
theorem no_stale_class_read_witness :
    (GetClasses demoCodec noFaults 70
        (CreateClass noFaults 60 (.ok ⟨"Chemistry", "Bo", 4⟩) twoEnrolled.1 staleCache).db
        (CreateClass noFaults 60 (.ok ⟨"Chemistry", "Bo", 4⟩) twoEnrolled.1 staleCache).cache).resp =
      ⟨200, .classesObj (storedClasses
        (CreateClass noFaults 60 (.ok ⟨"Chemistry", "Bo", 4⟩) twoEnrolled.1 staleCache).db)⟩ ∧
    (GetClasses demoCodec noFaults 70
        (UpdateClass noFaults 60 ⟨"1", 1⟩ (.ok ⟨"Math 102", "John", 5⟩)
          twoEnrolled.1 staleCache).db
        (UpdateClass noFaults 60 ⟨"1", 1⟩ (.ok ⟨"Math 102", "John", 5⟩)
          twoEnrolled.1 staleCache).cache).resp =
      ⟨200, .classesObj (storedClasses
        (UpdateClass noFaults 60 ⟨"1", 1⟩ (.ok ⟨"Math 102", "John", 5⟩)
          twoEnrolled.1 staleCache).db)⟩ ∧
    (∃ c, dbFirstClassPreload noFaults 1
        (UpdateClass noFaults 60 ⟨"1", 1⟩ (.ok ⟨"Math 102", "John", 5⟩)
          twoEnrolled.1 staleCache).db = some c ∧
      (GetClassByID demoCodec noFaults 70 ⟨"1", 1⟩
        (UpdateClass noFaults 60 ⟨"1", 1⟩ (.ok ⟨"Math 102", "John", 5⟩)
          twoEnrolled.1 staleCache).db
        (UpdateClass noFaults 60 ⟨"1", 1⟩ (.ok ⟨"Math 102", "John", 5⟩)
          twoEnrolled.1 staleCache).cache).resp = ⟨200, .classObj c⟩) ∧
    (GetClassByID demoCodec noFaults 70 ⟨"1", 1⟩
        (DeleteClass noFaults 60 ⟨"1", 1⟩ twoEnrolled.1 staleCache).db
        (DeleteClass noFaults 60 ⟨"1", 1⟩ twoEnrolled.1 staleCache).cache).resp =
      ⟨404, .error "Class not found"⟩ :=
  ⟨((no_stale_class_read demoCodec noFaults noFaults 60 70 ⟨"1", 1⟩
      (.ok ⟨"Chemistry", "Bo", 4⟩) twoEnrolled.1 staleCache rfl rfl rfl rfl).1
        (by decide)).2,
    ((no_stale_class_read demoCodec noFaults noFaults 60 70 ⟨"1", 1⟩
      (.ok ⟨"Math 102", "John", 5⟩) twoEnrolled.1 staleCache rfl rfl rfl rfl).2.1
        (by decide)).2.1,
    ((no_stale_class_read demoCodec noFaults noFaults 60 70 ⟨"1", 1⟩
      (.ok ⟨"Math 102", "John", 5⟩) twoEnrolled.1 staleCache rfl rfl rfl rfl).2.1
        (by decide)).2.2,
    ((no_stale_class_read demoCodec noFaults noFaults 60 70 ⟨"1", 1⟩
      (.ok ⟨"Math 102", "John", 5⟩) twoEnrolled.1 staleCache rfl rfl rfl rfl).2.2
        (by decide)).2.2.2⟩

/-- C4 as stated fails.  Class 5 was read once, so the cache holds its copy
under "class:5".  An `UpdateClass` of class 5 whose cache delete fails is
answered 200 and the store holds the new name, yet the next
`GetClassByID` answers 200 with the older cached copy.  The same happens when
the delete succeeds but the update came in under the path text `05`: the key
"class:05" is deleted and the copy under "class:5" stays. -/
theorem stale_class_read_after_update :
    (UpdateClass delFails 60 ⟨"5", 5⟩ (.ok ⟨"Physics II", "Ann Lee", 3⟩)
      physicsRoster physicsCached).resp.status = 200 ∧
    dbFirstClassPreload noFaults 5
      (UpdateClass delFails 60 ⟨"5", 5⟩ (.ok ⟨"Physics II", "Ann Lee", 3⟩)
        physicsRoster physicsCached).db =
      some { physicsClass with Name := "Physics II", UpdatedAt := 60, Students := [dave] } ∧
    (GetClassByID demoCodec noFaults 70 ⟨"5", 5⟩
      (UpdateClass delFails 60 ⟨"5", 5⟩ (.ok ⟨"Physics II", "Ann Lee", 3⟩)
        physicsRoster physicsCached).db
      (UpdateClass delFails 60 ⟨"5", 5⟩ (.ok ⟨"Physics II", "Ann Lee", 3⟩)
        physicsRoster physicsCached).cache).resp =
      ⟨200, .classObj { physicsClass with Name := "Physics", Students := [dave] }⟩ ∧
    (UpdateClass noFaults 60 ⟨"05", 5⟩ (.ok ⟨"Physics II", "Ann Lee", 3⟩)
      physicsRoster physicsCached).resp.status = 200 ∧
    (GetClassByID demoCodec noFaults 70 ⟨"5", 5⟩
      (UpdateClass noFaults 60 ⟨"05", 5⟩ (.ok ⟨"Physics II", "Ann Lee", 3⟩)
        physicsRoster physicsCached).db
      (UpdateClass noFaults 60 ⟨"05", 5⟩ (.ok ⟨"Physics II", "Ann Lee", 3⟩)
        physicsRoster physicsCached).cache).resp =
      ⟨200, .classObj { physicsClass with Name := "Physics", Students := [dave] }⟩ := by
  decide

/-! ## Read-through on a class -/

/-- C5. Read-through on `GetClassByID`: for a class found in the store and a
cache with no entry under "class:id", the handler answers 200 with the class
and its students, makes exactly one store read and exactly one cache write
(key "class:id", value the serialized class, expiry 10 minutes); a second
call on the resulting cache before that expiry makes no store read and
answers 200 with the same class. -/
theorem get_class_by_id_read_through (cdc : Codec) (f g : Faults) (now later : Nat) (id : PathID)
    (db : DB) (cache : Cache) (cls : Class)
    (hget : f.redisGet = false) (hset : f.redisSet = false)
    (hcls : dbFirstClassPreload f id.value db = some cls)
    (hcold : ∀ e ∈ cache, e.key ≠ "class:" ++ id.text)
    (hget2 : g.redisGet = false) (hlater : later < now + ttl)
    (hround : cdc.unmarshalClass (cdc.marshalClass cls) = some cls) :
    (GetClassByID cdc f now id db cache).resp = ⟨200, .classObj cls⟩ ∧
    (GetClassByID cdc f now id db cache).trace.filter Effect.isStoreRead =
      [.dbFirst "classes" id.value] ∧
    (GetClassByID cdc f now id db cache).trace.filter Effect.isCacheWrite =
      [.redisSet ("class:" ++ id.text) (some (cdc.marshalClass cls)) (10 * 60)] ∧
    (GetClassByID cdc f now id db cache).db = db ∧
    (GetClassByID cdc g later id (GetClassByID cdc f now id db cache).db
      (GetClassByID cdc f now id db cache).cache).trace.filter Effect.isStoreRead = [] ∧
    (GetClassByID cdc g later id (GetClassByID cdc f now id db cache).db
      (GetClassByID cdc f now id db cache).cache).resp = ⟨200, .classObj cls⟩ := by
  have hmiss := redisGet_miss_of_absent f now _ cache hget hcold
  have h1 : GetClassByID cdc f now id db cache =
      ⟨⟨200, .classObj cls⟩, db,
        ⟨"class:" ++ id.text, cdc.marshalClass cls, now + ttl⟩ ::
          cache.filter (fun e => decide (e.key ≠ "class:" ++ id.text)),
        [.redisGet ("class:" ++ id.text), .dbFirst "classes" id.value,
          .redisSet ("class:" ++ id.text) (some (cdc.marshalClass cls)) ttl]⟩ := by
    simp only [GetClassByID, hmiss, hcls, redisSet, hset]
    rfl
  have hhit : redisGet g later ("class:" ++ id.text)
      (⟨"class:" ++ id.text, cdc.marshalClass cls, now + ttl⟩ ::
          cache.filter (fun e => decide (e.key ≠ "class:" ++ id.text))) =
      .hit (cdc.marshalClass cls) := by
    simp [redisGet, hget2, List.find?, hlater]
  have h2 : GetClassByID cdc g later id db
      (⟨"class:" ++ id.text, cdc.marshalClass cls, now + ttl⟩ ::
          cache.filter (fun e => decide (e.key ≠ "class:" ++ id.text))) =
      ⟨⟨200, .classObj cls⟩, db,
        ⟨"class:" ++ id.text, cdc.marshalClass cls, now + ttl⟩ ::
          cache.filter (fun e => decide (e.key ≠ "class:" ++ id.text)),
        [.redisGet ("class:" ++ id.text)]⟩ := by
    simp only [GetClassByID, hhit, hround]
    rfl
  rw [h1]
  dsimp only
  rw [h2]
  simp [Effect.isStoreRead, Effect.isCacheWrite, ttl, Minute]

/-- Witness of C5 with id = 5. -/
theorem get_class_by_id_read_through_witness :
    (GetClassByID demoCodec noFaults 100 ⟨"5", 5⟩ physicsRoster []).resp =
      ⟨200, .classObj { physicsClass with Students := [dave] }⟩ ∧
    (GetClassByID demoCodec noFaults 100 ⟨"5", 5⟩ physicsRoster []).trace =
      [.redisGet "class:5", .dbFirst "classes" 5, .redisSet "class:5" (some "Physics") 600] ∧
    (GetClassByID demoCodec noFaults 699 ⟨"5", 5⟩
      (GetClassByID demoCodec noFaults 100 ⟨"5", 5⟩ physicsRoster []).db
      (GetClassByID demoCodec noFaults 100 ⟨"5", 5⟩ physicsRoster []).cache).trace.filter
        Effect.isStoreRead = [] :=
  ⟨(get_class_by_id_read_through demoCodec noFaults noFaults 100 699 ⟨"5", 5⟩ physicsRoster []
      { physicsClass with Students := [dave] } rfl rfl (by decide) (by decide) rfl
      (by decide) (by decide)).1,
    by decide,
    (get_class_by_id_read_through demoCodec noFaults noFaults 100 699 ⟨"5", 5⟩ physicsRoster []
      { physicsClass with Students := [dave] } rfl rfl (by decide) (by decide) rfl
      (by decide) (by decide)).2.2.2.2.1⟩

/-! ## Corrupt cache entries -/

theorem GetClasses_store_read (cdc : Codec) (f : Faults) (now : Nat) (db : DB) (cache : Cache)
    (h : ∃ e ∈ (GetClasses cdc f now db cache).trace, e.isStoreRead = true) :
    redisGet f now "classes" cache = .miss := by
  unfold GetClasses at h
  cases hl : redisGet f now "classes" cache with
  | miss => rfl
  | fail => simp [hl, Effect.isStoreRead] at h
  | hit val => cases hu : cdc.unmarshalClasses val <;> simp [hl, hu, Effect.isStoreRead] at h

theorem GetClassByID_store_read (cdc : Codec) (f : Faults) (now : Nat) (id : PathID) (db : DB)
    (cache : Cache)
    (h : ∃ e ∈ (GetClassByID cdc f now id db cache).trace, e.isStoreRead = true) :
    redisGet f now ("class:" ++ id.text) cache = .miss := by
  unfold GetClassByID at h
  cases hl : redisGet f now ("class:" ++ id.text) cache with
  | miss => rfl
  | fail => simp [hl, Effect.isStoreRead] at h
  | hit val => cases hu : cdc.unmarshalClass val <;> simp [hl, hu, Effect.isStoreRead] at h

theorem GetAllStudents_store_read (cdc : Codec) (f : Faults) (now : Nat) (db : DB)
    (cache : Cache)
    (h : ∃ e ∈ (GetAllStudents cdc f now db cache).trace, e.isStoreRead = true) :
    redisGet f now "students" cache = .miss := by
  unfold GetAllStudents at h
  cases hl : redisGet f now "students" cache with
  | miss => rfl
  | fail => simp [hl, Effect.isStoreRead] at h
  | hit val => cases hu : cdc.unmarshalStudents val <;> simp [hl, hu, Effect.isStoreRead] at h

theorem GetStudentByID_store_read (cdc : Codec) (f : Faults) (now : Nat) (id : PathID) (db : DB)
    (cache : Cache)
    (h : ∃ e ∈ (GetStudentByID cdc f now id db cache).trace, e.isStoreRead = true) :
    redisGet f now ("student:" ++ id.text) cache = .miss := by
  unfold GetStudentByID at h
  cases hl : redisGet f now ("student:" ++ id.text) cache with
  | miss => rfl
  | fail => simp [hl, Effect.isStoreRead] at h
  | hit val => cases hu : cdc.unmarshalStudent val <;> simp [hl, hu, Effect.isStoreRead] at h

/-- C6. A cached value that fails to deserialize is an error, never a miss: in
each of the four read handlers, when the cache lookup returns a value that the
codec rejects, the handler answers 500, its only call is the cache lookup (no
store read, no cache write) and store and cache are left as they were; and a
handler whose trace holds a store read had a clean miss from the cache. -/
theorem corrupt_cache_entry_is_an_error (cdc : Codec) (f : Faults) (now : Nat) (id : PathID)
    (db : DB) (cache : Cache) :
    (∀ val, redisGet f now "classes" cache = .hit val → cdc.unmarshalClasses val = none →
      GetClasses cdc f now db cache =
        ⟨⟨500, .error "Failed to unmarshal classes from cache"⟩, db, cache,
          [.redisGet "classes"]⟩) ∧
    (∀ val, redisGet f now ("class:" ++ id.text) cache = .hit val →
      cdc.unmarshalClass val = none →
      GetClassByID cdc f now id db cache =
        ⟨⟨500, .error "Failed to unmarshal class from cache"⟩, db, cache,
          [.redisGet ("class:" ++ id.text)]⟩) ∧
    (∀ val, redisGet f now "students" cache = .hit val → cdc.unmarshalStudents val = none →
      GetAllStudents cdc f now db cache =
        ⟨⟨500, .error "Failed to unmarshal students from cache"⟩, db, cache,
          [.redisGet "students"]⟩) ∧
    (∀ val, redisGet f now ("student:" ++ id.text) cache = .hit val →
      cdc.unmarshalStudent val = none →
      GetStudentByID cdc f now id db cache =
        ⟨⟨500, .error "Failed to unmarshal student from cache"⟩, db, cache,
          [.redisGet ("student:" ++ id.text)]⟩) ∧
    ((∃ e ∈ (GetClasses cdc f now db cache).trace, e.isStoreRead = true) →
      redisGet f now "classes" cache = .miss) ∧
    ((∃ e ∈ (GetClassByID cdc f now id db cache).trace, e.isStoreRead = true) →
      redisGet f now ("class:" ++ id.text) cache = .miss) ∧
    ((∃ e ∈ (GetAllStudents cdc f now db cache).trace, e.isStoreRead = true) →
      redisGet f now "students" cache = .miss) ∧
    ((∃ e ∈ (GetStudentByID cdc f now id db cache).trace, e.isStoreRead = true) →
      redisGet f now ("student:" ++ id.text) cache = .miss) := by
  refine ⟨?_, ?_, ?_, ?_, GetClasses_store_read cdc f now db cache,
    GetClassByID_store_read cdc f now id db cache,
    GetAllStudents_store_read cdc f now db cache,
    GetStudentByID_store_read cdc f now id db cache⟩
  · intro val hhit hbad
    simp only [GetClasses, hhit, hbad]
    rfl
  · intro val hhit hbad
    simp only [GetClassByID, hhit, hbad]
    rfl
  · intro val hhit hbad
    simp only [GetAllStudents, hhit, hbad]
    rfl
  · intro val hhit hbad
    simp only [GetStudentByID, hhit, hbad]
    rfl

/-- Witness of C6 on `corruptCache`, whose four entries the codec rejects. -/
theorem corrupt_cache_entry_is_an_error_witness :
    GetClasses demoCodec noFaults 5 twoEnrolled.1 corruptCache =
      ⟨⟨500, .error "Failed to unmarshal classes from cache"⟩, twoEnrolled.1, corruptCache,
        [.redisGet "classes"]⟩ ∧
    GetClassByID demoCodec noFaults 5 ⟨"1", 1⟩ twoEnrolled.1 corruptCache =
      ⟨⟨500, .error "Failed to unmarshal class from cache"⟩, twoEnrolled.1, corruptCache,
        [.redisGet "class:1"]⟩ ∧
    GetAllStudents demoCodec noFaults 5 twoEnrolled.1 corruptCache =
      ⟨⟨500, .error "Failed to unmarshal students from cache"⟩, twoEnrolled.1, corruptCache,
        [.redisGet "students"]⟩ ∧
    GetStudentByID demoCodec noFaults 5 ⟨"1", 1⟩ twoEnrolled.1 corruptCache =
      ⟨⟨500, .error "Failed to unmarshal student from cache"⟩, twoEnrolled.1, corruptCache,
        [.redisGet "student:1"]⟩ ∧
    redisGet noFaults 5 "classes" [] = .miss :=
  ⟨(corrupt_cache_entry_is_an_error demoCodec noFaults 5 ⟨"1", 1⟩ twoEnrolled.1 corruptCache).1
      "garbage" (by decide) (by decide),
    (corrupt_cache_entry_is_an_error demoCodec noFaults 5 ⟨"1", 1⟩ twoEnrolled.1 corruptCache).2.1
      "garbage" (by decide) (by decide),
    (corrupt_cache_entry_is_an_error demoCodec noFaults 5 ⟨"1", 1⟩ twoEnrolled.1 corruptCache).2.2.1
      "garbage" (by decide) (by decide),
    (corrupt_cache_entry_is_an_error demoCodec noFaults 5 ⟨"1", 1⟩ twoEnrolled.1 corruptCache).2.2.2.1
      "garbage" (by decide) (by decide),
    (corrupt_cache_entry_is_an_error demoCodec noFaults 5 ⟨"1", 1⟩ twoEnrolled.1 []).2.2.2.2.1
      ⟨.dbFind "classes", by decide, rfl⟩⟩

/-! ## Status of a failing store call -/

/-- C7, the code at a failing store call: `CreateClass` on a failing insert and
`GetClasses` on a failing list query in its miss path answer 400 with the
text of the store error, where `CreateStudent` and `GetAllStudents` answer 500
with a fixed text on the same failures. -/
theorem class_handlers_answer_400_on_store_failure :
    (CreateClass insertFails 10 (.ok ⟨"Math 101", "Jane Smith", 2⟩) emptyRoster []).resp =
      ⟨400, .error "connection refused"⟩ ∧
    (GetClasses demoCodec findFails 10 emptyRoster []).resp =
      ⟨400, .error "connection refused"⟩ ∧
    (CreateStudent demoCodec insertFails 10 (.ok alice) emptyRoster []).resp =
      ⟨500, .error "Failed to create student"⟩ ∧
    (GetAllStudents demoCodec findFails 10 emptyRoster []).resp =
      ⟨500, .error "Failed to retrieve students"⟩ := by
  decide

/-! ## The aggregate key on create -/

theorem CreateStudent_no_del (cdc : Codec) (f : Faults) (now : Nat)
    (body : Except String StudentBody) (db : DB) (cache : Cache) :
    ∀ e ∈ (CreateStudent cdc f now body db cache).trace, ∀ ks, e ≠ .redisDel ks := by
  unfold CreateStudent
  split
  · simp
  · split
    · simp
    · dsimp only
      split
      · simp
      · split
        · simp
        · split <;> simp

/-- C8, the code at a create of a student in a class with room.  On no path
does `CreateStudent` call `Del`.  With a cache client that refuses the student
struct handed to `Set`, the create of Alice in the empty class of capacity 2
is answered 500 "Failed to cache student" although the row is inserted; an
entry under "students", where the cache holds one, stays, and the next
`GetAllStudents` answers from it with a list that lacks the student.
`CreateClass` on the same store is answered 201 and leaves no entry under
"classes". -/
theorem create_student_never_invalidates :
    (∀ (cdc : Codec) (f : Faults) (now : Nat) (body : Except String StudentBody)
        (db : DB) (cache : Cache),
      ∀ e ∈ (CreateStudent cdc f now body db cache).trace, ∀ ks, e ≠ .redisDel ks) ∧
    (CreateStudent demoCodec noFaults 10 (.ok alice) emptyRoster []).resp =
      ⟨500, .error "Failed to cache student"⟩ ∧
    dbFindStudents noFaults (CreateStudent demoCodec noFaults 10 (.ok alice) emptyRoster []).db =
      some [⟨1, 10, 10, none, "Alice", 20, "alice@example.com", 1⟩] ∧
    (CreateStudent demoCodec noFaults 10 (.ok alice) emptyRoster staleCache).cache =
      staleCache ∧
    (GetAllStudents demoCodec noFaults 20
      (CreateStudent demoCodec noFaults 10 (.ok alice) emptyRoster staleCache).db
      (CreateStudent demoCodec noFaults 10 (.ok alice) emptyRoster staleCache).cache).resp =
      ⟨200, .students []⟩ ∧
    (CreateClass noFaults 10 (.ok ⟨"Chemistry", "Bo", 4⟩) emptyRoster staleCache).resp.status
      = 201 ∧
    (∀ e ∈ (CreateClass noFaults 10 (.ok ⟨"Chemistry", "Bo", 4⟩) emptyRoster staleCache).cache,
      e.key ≠ "classes") :=
  ⟨CreateStudent_no_del, by decide, by decide, by decide, by decide, by decide, by decide⟩

/-! ## Updates of a student -/

theorem classRowExists_congr (db : DB) (classes : List Class) (k : Nat)
    (hids : classes.map Class.ID = db.classes.map Class.ID) :
    classRowExists { db with classes := classes } k = classRowExists db k := by
  have h : ∀ l : List Class,
      l.any (fun c => decide (c.ID = k)) = (l.map Class.ID).any (fun i => decide (i = k)) := by
    intro l
    induction l with
    | nil => rfl
    | cons a l ih => simp [List.any_cons, ih]
  unfold classRowExists
  rw [h, h]
  exact congrArg (fun ids => List.any ids (fun i => decide (i = k))) hids

theorem UpdateStudent_loaded (cdc : Codec) (f : Faults) (now : Nat) (id : PathID)
    (p : StudentPatch) (db : DB) (cache : Cache) (loaded : Student)
    (hload : dbFirstStudent f id.value db = some loaded) :
    UpdateStudent cdc f now id (.ok p) db cache =
      if f.dbSave = true ∨ classRowExists db (bindPatch loaded p).ClassID = false then
        ⟨⟨500, .error "Failed to update student"⟩, db, cache,
          [.dbFirst "students" id.value, .dbSave "students" loaded.ID]⟩
      else
        ⟨⟨200, .studentObj { bindPatch loaded p with UpdatedAt := now }⟩,
          { db with students := (db.students.map (fun r =>
            if r.ID = loaded.ID ∧ r.DeletedAt = none then
              { bindPatch loaded p with UpdatedAt := now } else r)) },
          (redisSet f now ("student:" ++ Itoa (goInt loaded.ID))
            (cdc.argStudent { bindPatch loaded p with UpdatedAt := now }) ttl cache).getD cache,
          [.dbFirst "students" id.value, .dbSave "students" loaded.ID,
            .redisSet ("student:" ++ Itoa (goInt loaded.ID))
              (cdc.argStudent { bindPatch loaded p with UpdatedAt := now }) ttl]⟩ := by
  cases hs : f.dbSave with
  | true => simp [UpdateStudent, hload, dbSaveStudent, hs, bindPatch, StatusInternalServerError]
  | false =>
    cases hk : classRowExists db (bindPatch loaded p).ClassID with
    | false =>
      simp only [UpdateStudent, hload, dbSaveStudent, hs, hk, StatusInternalServerError]
      simp [bindPatch]
    | true =>
      simp only [UpdateStudent, hload, dbSaveStudent, hs, hk, StatusOK]
      simp [bindPatch]

/-- C9. `UpdateStudent` makes no capacity check.  There is a store satisfying
the capacity invariant and an update moving a student into a class already at
capacity that is answered 200 and leaves that class above its capacity.  And
for every update, with a body carrying columns of the student, of a student
the store holds: response, cache, calls made and resulting students table are
the same for every classes table with the same ids, whatever capacities its
rows carry; the response is 200 with the bound student as soon as the save
call answers and some class row carries the `ClassID` of the bound student,
however many students that class holds. -/
theorem update_student_ignores_capacity (cdc : Codec) (f : Faults) (now : Nat) (id : PathID)
    (p : StudentPatch) (db : DB) (cache : Cache) (loaded : Student) :
    (classKeysUnique campus ∧ capacityInvariant campus ∧
      ((enrolled campus 1).length : Int) = mathClass.Capacity ∧
      (UpdateStudent demoCodec noFaults 50 ⟨"3", 3⟩ (.ok moveToMath) campus []).resp.status
        = 200 ∧
      mathClass ∈
        (UpdateStudent demoCodec noFaults 50 ⟨"3", 3⟩ (.ok moveToMath) campus []).db.classes ∧
      mathClass.Capacity <
        ((enrolled (UpdateStudent demoCodec noFaults 50 ⟨"3", 3⟩ (.ok moveToMath) campus []).db
          1).length : Int)) ∧
    (dbFirstStudent f id.value db = some loaded →
      (∀ classes : List Class, classes.map Class.ID = db.classes.map Class.ID →
        (UpdateStudent cdc f now id (.ok p) { db with classes := classes } cache).resp =
          (UpdateStudent cdc f now id (.ok p) db cache).resp ∧
        (UpdateStudent cdc f now id (.ok p) { db with classes := classes } cache).cache =
          (UpdateStudent cdc f now id (.ok p) db cache).cache ∧
        (UpdateStudent cdc f now id (.ok p) { db with classes := classes } cache).trace =
          (UpdateStudent cdc f now id (.ok p) db cache).trace ∧
        (UpdateStudent cdc f now id (.ok p) { db with classes := classes } cache).db.students =
          (UpdateStudent cdc f now id (.ok p) db cache).db.students ∧
        (UpdateStudent cdc f now id (.ok p) { db with classes := classes } cache).db.classes =
          classes) ∧
      (f.dbSave = false → classRowExists db (bindPatch loaded p).ClassID = true →
        (UpdateStudent cdc f now id (.ok p) db cache).resp =
          ⟨200, .studentObj { bindPatch loaded p with UpdatedAt := now }⟩)) := by
  refine ⟨by decide, ?_⟩
  intro hload
  refine ⟨?_, ?_⟩
  · intro classes hids
    have hload2 : dbFirstStudent f id.value { db with classes := classes } = some loaded :=
      hload
    rw [UpdateStudent_loaded cdc f now id p _ cache loaded hload2,
      UpdateStudent_loaded cdc f now id p db cache loaded hload,
      classRowExists_congr db classes _ hids]
    split <;> exact ⟨rfl, rfl, rfl, rfl, rfl⟩
  · intro hs hk
    rw [UpdateStudent_loaded cdc f now id p db cache loaded hload, hs, hk]
    rfl

/-- Witness of C9 on `campus`: moving Dave into the full class 1 is answered
200, and answered the same when the class rows carry other capacities. -/
theorem update_student_ignores_capacity_witness :
    dbFirstStudent noFaults 3 campus = some { dave with ID := 3 } ∧
    campusRelabelled.map Class.ID = campus.classes.map Class.ID ∧
    (UpdateStudent demoCodec noFaults 50 ⟨"3", 3⟩ (.ok moveToMath)
      { campus with classes := campusRelabelled } []).resp =
      (UpdateStudent demoCodec noFaults 50 ⟨"3", 3⟩ (.ok moveToMath) campus []).resp ∧
    (UpdateStudent demoCodec noFaults 50 ⟨"3", 3⟩ (.ok moveToMath) campus []).resp =
      ⟨200, .studentObj { dave with ID := 3, ClassID := 1, UpdatedAt := 50 }⟩ :=
  ⟨by decide, by decide,
    (((update_student_ignores_capacity demoCodec noFaults 50 ⟨"3", 3⟩ moveToMath campus []
      { dave with ID := 3 }).2 (by decide)).1 campusRelabelled (by decide)).1,
    ((update_student_ignores_capacity demoCodec noFaults 50 ⟨"3", 3⟩ moveToMath campus []
      { dave with ID := 3 }).2 (by decide)).2 rfl (by decide)⟩

/-! ## A failing cache write after the insert -/

/-- C10. `CreateStudent` is not atomic on a cache failure: when the class named
by the body is found with room, the insert succeeds with row `st` and store
`db1`, and the write of "student:id" to the cache fails, the handler answers
500 "Failed to cache student", the cache is as it was, and the store is `db1`,
which holds `st`: the enrolled count of the class has grown by one. -/
theorem create_student_not_atomic (cdc : Codec) (f : Faults) (now : Nat) (b : StudentBody)
    (db : DB) (cache : Cache) (cls : Class) (st : Student) (db1 : DB)
    (hcls : dbFirstClass f b.ClassID db = some cls)
    (hroom : ((enrolled db b.ClassID).length : Int) < cls.Capacity)
    (hins : dbCreateStudent f now b db = (some st, db1))
    (hset : redisSet f now ("student:" ++ Itoa (goInt st.ID)) (cdc.argStudent st) ttl cache
      = none) :
    (CreateStudent cdc f now (.ok b) db cache).resp =
      ⟨500, .error "Failed to cache student"⟩ ∧
    (CreateStudent cdc f now (.ok b) db cache).db = db1 ∧
    (CreateStudent cdc f now (.ok b) db cache).cache = cache ∧
    st ∈ (CreateStudent cdc f now (.ok b) db cache).db.students ∧
    (enrolled (CreateStudent cdc f now (.ok b) db cache).db b.ClassID).length =
      (enrolled db b.ClassID).length + 1 := by
  have hlt : ¬ (dbCountStudents f b.ClassID db ≥ cls.Capacity) := by
    unfold dbCountStudents
    split
    · have : (0 : Int) ≤ ((enrolled db b.ClassID).length : Int) := Int.ofNat_nonneg _
      omega
    · omega
  have hres : CreateStudent cdc f now (.ok b) db cache =
      ⟨⟨500, .error "Failed to cache student"⟩, db1, cache,
        [.dbFirst "classes" b.ClassID, .dbCount "students" b.ClassID, .dbCreate "students",
          .redisSet ("student:" ++ Itoa (goInt st.ID)) (cdc.argStudent st) ttl]⟩ := by
    simp only [CreateStudent, hcls, hlt, if_false, hins, hset]
    rfl
  rw [hres]
  dsimp only
  rcases dbCreateStudent_students f now b db with ⟨hnone, _⟩ | ⟨s, hsome, hsc, hsl, _, hs⟩
  · rw [hins] at hnone; cases hnone
  · rw [hins] at hsome hs
    simp at hsome hs
    subst hsome
    refine ⟨rfl, rfl, rfl, ?_, ?_⟩
    · rw [hs]; simp
    · rw [enrolled_append hs, if_pos ⟨hsc, hsl⟩]

/-- Witness of C10: Alice is created in the empty class of capacity 2 while
the cache write fails. -/
theorem create_student_not_atomic_witness :
    (CreateStudent demoCodec setFails 10 (.ok alice) emptyRoster []).resp =
      ⟨500, .error "Failed to cache student"⟩ ∧
    (enrolled (CreateStudent demoCodec setFails 10 (.ok alice) emptyRoster []).db 1).length
      = 1 :=
  ⟨(create_student_not_atomic demoCodec setFails 10 alice emptyRoster [] mathClass
      ⟨1, 10, 10, none, "Alice", 20, "alice@example.com", 1⟩
      ⟨[mathClass], [⟨1, 10, 10, none, "Alice", 20, "alice@example.com", 1⟩], 2, 2⟩
      (by decide) (by decide) (by decide) (by decide)).1,
    (create_student_not_atomic demoCodec setFails 10 alice emptyRoster [] mathClass
      ⟨1, 10, 10, none, "Alice", 20, "alice@example.com", 1⟩
      ⟨[mathClass], [⟨1, 10, 10, none, "Alice", 20, "alice@example.com", 1⟩], 2, 2⟩
      (by decide) (by decide) (by decide) (by decide)).2.2.2.2⟩

end Lab6
